import Mathlib

/-!
Shallow embedding of `maci-test/experiments/real-data-analysis.py`:
the MaciRLA sampling-size algorithm (`calc_sample_counts`), the per-dispute
cost analysis (`analyze_dispute`), and the aggregation pipeline
(`summarize_results`, `build_histogram`).

Python integers are modelled by `Nat`/`Int`; Python reals by `Rat`
(the script's arithmetic is exact at the modelled scales, and the spec
mandates exact integer ceiling/floor semantics for the sampling core).
`math.ceil(a / b)` on non-negative integers is modelled by the exact
ceiling division `cdiv`.  Python's `round` (banker's rounding, half to
even) is modelled by `pyRound`/`pyRoundTo`.  Code that can raise
`ZeroDivisionError` is modelled with `Option`, `none` marking the raise.
-/

set_option maxRecDepth 100000

set_option maxHeartbeats 1000000

/- `Rat.mul`, `Rat.add`, `Rat.sub` and `Rat.inv` are `@[irreducible]` in
Batteries, which blocks `decide` from evaluating concrete rational
arithmetic; the kernel itself reduces them fine. -/
attribute [local semireducible] Rat.mul Rat.add Rat.sub Rat.inv

-- ── Constants (lines 21-35 of real-data-analysis.py) ──

def CONFIDENCE_X1000 : ℕ := 2996

def PM_BATCH_SIZE : ℕ := 5

def TV_BATCH_SIZE : ℕ := 2

def PM_PROOF_GAS : ℕ := 474492

def TV_PROOF_GAS : ℕ := 402099

def MACI_FIXED_GAS : ℕ := 7893819

def MACIRLA_FIXED_GAS : ℕ := 7000000

def GAS_PRICE_GWEI : ℚ := 30

def ETH_PRICE_USD : ℚ := 3000

def WEI_PER_GWEI : ℚ := 1000000000

def WEI_PER_ETH : ℚ := 1000000000000000000

-- ── Arithmetic helpers ──

/-- Ceiling division on naturals: `math.ceil(a / b)` for `a, b : ℕ`, `b > 0`. -/
def cdiv (a b : ℕ) : ℕ := (a + b - 1) / b

/-- Floor of a rational as an integer (`q.num` and `q.den` are coprime,
`Int.fdiv` is floor division). -/
def qfloor (q : ℚ) : ℤ := Int.fdiv q.num (q.den : ℤ)

/-- Python `round(q)`: round half to even (banker's rounding). -/
def pyRound (q : ℚ) : ℤ :=
  let f := qfloor q
  let r := q - (f : ℚ)
  if r < 1/2 then f
  else if 1/2 < r then f + 1
  else if f % 2 = 0 then f else f + 1

/-- Python `round(q, n)`: banker's rounding at `n` decimal places. -/
def pyRoundTo (q : ℚ) (n : ℕ) : ℚ := (pyRound (q * 10 ^ n) : ℚ) / 10 ^ n

-- ── MaciRLA sampling logic (lines 40-68) ──

/-- Line 54: `votes_to_flip = margin // 2 + 1` (floor division). -/
def votes_to_flip (margin : ℕ) : ℕ := margin / 2 + 1

/-- Lines 51-52: leave at least one unsampled batch when more than one exists. -/
def max_samples (batch_count : ℕ) : ℕ :=
  if 1 < batch_count then batch_count - 1 else batch_count

/-- Lines 57-58 / 63-64: minimum number of corrupted batches needed to flip
the outcome, capped at the batch count. -/
def corrupt_batches (vtf batch_size batch_count : ℕ) : ℕ :=
  min (cdiv vtf batch_size) batch_count

/-- Lines 59 / 65: the simplified RLA sample-size ratio. -/
def required_samples (batch_count corrupt : ℕ) : ℕ :=
  cdiv (CONFIDENCE_X1000 * batch_count) (corrupt * 1000)

/-- Lines 56-60 / 62-66, one batch structure.  Python raises
`ZeroDivisionError` exactly when `batch_size = 0` (line 57/63) or the capped
corrupt-batch count is `0` (line 59/65); with `batch_size = 0` the Lean
`cdiv` is `0` so both raising cases coincide with `corrupt_batches … = 0`. -/
def sample_one (vtf batch_size batch_count : ℕ) : Option ℕ :=
  if corrupt_batches vtf batch_size batch_count = 0 then none
  else some (min (required_samples batch_count (corrupt_batches vtf batch_size batch_count))
                 (max_samples batch_count))

/-- Lines 40-68: `calc_sample_counts` (mirrors Solidity `_calcSampleCounts`).
`none` models a raised `ZeroDivisionError`. -/
def calc_sample_counts (margin total_votes pm_batch_count tv_batch_count
    pm_batch_size tv_batch_size : ℕ) : Option (ℕ × ℕ) :=
  if total_votes = 0 then some (0, 0)
  else if margin = 0 then some (pm_batch_count, tv_batch_count)
  else
    match sample_one (votes_to_flip margin) pm_batch_size pm_batch_count,
          sample_one (votes_to_flip margin) tv_batch_size tv_batch_count with
    | some p, some t => some (p, t)
    | _, _ => none

/-- Lines 71-74: `gas_to_usd`. -/
def gas_to_usd (gas : ℤ) : ℚ :=
  (gas : ℚ) * GAS_PRICE_GWEI * WEI_PER_GWEI / WEI_PER_ETH * ETH_PRICE_USD

-- ── Per-dispute analysis (lines 115-163) ──

/-- The record returned by `analyze_dispute` (lines 143-163).  Percentage,
consensus-rate and USD fields hold the rounded values the Python dict
stores. -/
structure AnalysisResult where
  voters : ℕ
  yes_votes : ℤ
  no_votes : ℤ
  margin : ℤ
  margin_pct : ℚ
  consensus_rate : ℚ
  pm_batches : ℕ
  tv_batches : ℕ
  pm_samples : ℕ
  tv_samples : ℕ
  total_batches : ℕ
  total_samples : ℕ
  full_maci_gas : ℕ
  macirla_gas : ℕ
  savings_gas : ℤ
  savings_pct : ℚ
  full_usd : ℚ
  rla_usd : ℚ
  savings_usd : ℚ
deriving Repr, DecidableEq

/-- Lines 115-163: `analyze_dispute`.  `none` models a raised exception
(propagated from `calc_sample_counts`). -/
def analyze_dispute (voters : ℕ) (consensus_rate : ℚ) : Option AnalysisResult :=
  let yes_votes : ℤ := pyRound ((voters : ℚ) * consensus_rate)
  let no_votes : ℤ := (voters : ℤ) - yes_votes
  let margin : ℤ := |yes_votes - no_votes|
  let margin_pct : ℚ := if 0 < voters then (margin : ℚ) / (voters : ℚ) * 100 else 0
  let pm_batches : ℕ := cdiv voters PM_BATCH_SIZE
  let tv_batches : ℕ := cdiv (voters + 1) TV_BATCH_SIZE
  match calc_sample_counts margin.toNat voters pm_batches tv_batches
          PM_BATCH_SIZE TV_BATCH_SIZE with
  | none => none
  | some (pm_samples, tv_samples) =>
    let full_maci_gas : ℕ :=
      pm_batches * PM_PROOF_GAS + tv_batches * TV_PROOF_GAS + MACI_FIXED_GAS
    let macirla_gas : ℕ :=
      pm_samples * PM_PROOF_GAS + tv_samples * TV_PROOF_GAS + MACIRLA_FIXED_GAS
    let savings_gas : ℤ := (full_maci_gas : ℤ) - (macirla_gas : ℤ)
    let savings_pct : ℚ :=
      if 0 < full_maci_gas then (savings_gas : ℚ) / (full_maci_gas : ℚ) * 100 else 0
    let full_usd : ℚ := gas_to_usd (full_maci_gas : ℤ)
    let rla_usd : ℚ := gas_to_usd (macirla_gas : ℤ)
    let savings_usd : ℚ := full_usd - rla_usd
    some { voters := voters
           yes_votes := yes_votes
           no_votes := no_votes
           margin := margin
           margin_pct := pyRoundTo margin_pct 1
           consensus_rate := pyRoundTo consensus_rate 4
           pm_batches := pm_batches
           tv_batches := tv_batches
           pm_samples := pm_samples
           tv_samples := tv_samples
           total_batches := pm_batches + tv_batches
           total_samples := pm_samples + tv_samples
           full_maci_gas := full_maci_gas
           macirla_gas := macirla_gas
           savings_gas := savings_gas
           savings_pct := pyRoundTo savings_pct 1
           full_usd := pyRoundTo full_usd 2
           rla_usd := pyRoundTo rla_usd 2
           savings_usd := pyRoundTo savings_usd 2 }

-- ── Aggregation (lines 166-217) ──

/-- Insert into a sorted list (ascending). -/
def ins {α : Type} [LinearOrder α] (x : α) : List α → List α
  | [] => [x]
  | y :: ys => if x ≤ y then x :: y :: ys else y :: ins x ys

/-- Insertion sort, ascending: models Python `sorted`. -/
def isort {α : Type} [LinearOrder α] (l : List α) : List α := l.foldr ins []

/-- Python `min(l)` for non-empty `l` (`d` is unused then). -/
def lmin {α : Type} [LinearOrder α] (d : α) : List α → α
  | [] => d
  | x :: xs => xs.foldl min x

/-- Python `max(l)` for non-empty `l` (`d` is unused then). -/
def lmax {α : Type} [LinearOrder α] (d : α) : List α → α
  | [] => d
  | x :: xs => xs.foldl max x

/-- Python `sorted(l)[len(l) // 2]`: the upper median. -/
def medianOf {α : Type} [LinearOrder α] (d : α) (l : List α) : α :=
  (isort l).getD (l.length / 2) d

/-- The summary dict built by `summarize_results` (lines 177-207). -/
structure SummaryStats where
  protocol : String
  dispute_count : ℕ
  voter_min : ℕ
  voter_max : ℕ
  voter_mean : ℚ
  voter_median : ℕ
  margin_min : ℚ
  margin_max : ℚ
  margin_mean : ℚ
  margin_median : ℚ
  savings_min : ℚ
  savings_max : ℚ
  savings_mean : ℚ
  savings_median : ℚ
  total_full_gas : ℕ
  total_rla_gas : ℕ
  total_savings_gas : ℤ
  aggregate_savings_pct : ℚ
  total_full_usd : ℚ
  total_rla_usd : ℚ
  total_savings_usd : ℚ
deriving Repr, DecidableEq

/-- Lines 166-207: `summarize_results`.  `none` models the empty-input early
return (`return \x7b\x7d`). -/
def summarize_results (results : List AnalysisResult) (protocol_name : String) :
    Option SummaryStats :=
  if results.isEmpty then none
  else
    let voters_list := results.map AnalysisResult.voters
    let margins := results.map AnalysisResult.margin_pct
    let savings := results.map AnalysisResult.savings_pct
    let total_full_gas := (results.map AnalysisResult.full_maci_gas).sum
    let total_rla_gas := (results.map AnalysisResult.macirla_gas).sum
    let n := results.length
    some { protocol := protocol_name
           dispute_count := n
           voter_min := lmin 0 voters_list
           voter_max := lmax 0 voters_list
           voter_mean := pyRoundTo ((voters_list.sum : ℚ) / (n : ℚ)) 1
           voter_median := medianOf 0 voters_list
           margin_min := pyRoundTo (lmin 0 margins) 1
           margin_max := pyRoundTo (lmax 0 margins) 1
           margin_mean := pyRoundTo (margins.sum / (n : ℚ)) 1
           margin_median := pyRoundTo (medianOf 0 margins) 1
           savings_min := pyRoundTo (lmin 0 savings) 1
           savings_max := pyRoundTo (lmax 0 savings) 1
           savings_mean := pyRoundTo (savings.sum / (n : ℚ)) 1
           savings_median := pyRoundTo (medianOf 0 savings) 1
           total_full_gas := total_full_gas
           total_rla_gas := total_rla_gas
           total_savings_gas := (total_full_gas : ℤ) - (total_rla_gas : ℤ)
           aggregate_savings_pct :=
             if 0 < total_full_gas then
               pyRoundTo (((total_full_gas : ℚ) - (total_rla_gas : ℚ)) /
                 (total_full_gas : ℚ) * 100) 1
             else 0
           total_full_usd := pyRoundTo (gas_to_usd (total_full_gas : ℤ)) 2
           total_rla_usd := pyRoundTo (gas_to_usd (total_rla_gas : ℤ)) 2
           total_savings_usd :=
             pyRoundTo (gas_to_usd ((total_full_gas : ℤ) - (total_rla_gas : ℤ))) 2 }

/-- Lines 210-217: `build_histogram`.  The Python `key` string is modelled by
the field projection `f`; the result is the list of per-bucket counts, in
bucket order (each bucket is half-open `[lo, hi)`). -/
def build_histogram (results : List AnalysisResult) (f : AnalysisResult → ℚ)
    (bins : List (ℚ × ℚ)) : List ℕ :=
  bins.map (fun b =>
    ((results.map f).filter (fun v => decide (b.1 ≤ v) && decide (v < b.2))).length)

-- ── Lemmas about ceiling division ──

lemma cdiv_le_iff {b : ℕ} (hb : 0 < b) (a k : ℕ) : cdiv a b ≤ k ↔ a ≤ k * b := by
  unfold cdiv
  rw [← Nat.lt_succ_iff, Nat.div_lt_iff_lt_mul hb, Nat.succ_mul]
  omega

lemma le_cdiv_mul {b : ℕ} (hb : 0 < b) (a : ℕ) : a ≤ cdiv a b * b :=
  (cdiv_le_iff hb a (cdiv a b)).1 le_rfl

lemma cdiv_pos {a b : ℕ} (ha : 0 < a) (hb : 0 < b) : 0 < cdiv a b := by
  have h := cdiv_le_iff hb a 0
  omega

lemma cdiv_le_cdiv_num {b : ℕ} (hb : 0 < b) {a c : ℕ} (h : a ≤ c) :
    cdiv a b ≤ cdiv c b :=
  (cdiv_le_iff hb a (cdiv c b)).2 (le_trans h (le_cdiv_mul hb c))

lemma cdiv_le_cdiv_den {a b c : ℕ} (hb : 0 < b) (h : b ≤ c) :
    cdiv a c ≤ cdiv a b := by
  have hc : 0 < c := lt_of_lt_of_le hb h
  exact (cdiv_le_iff hc a (cdiv a b)).2
    (le_trans (le_cdiv_mul hb a) (Nat.mul_le_mul_left _ h))

-- ── Lemmas about the sampling core ──

lemma max_samples_le (bc : ℕ) : max_samples bc ≤ bc := by
  unfold max_samples
  split <;> omega

lemma sample_one_le_max {v sz bc s : ℕ} (h : sample_one v sz bc = some s) :
    s ≤ max_samples bc := by
  unfold sample_one at h
  split at h
  · exact absurd h (by simp)
  · simp only [Option.some.injEq] at h
    omega

lemma sample_one_le_bc {v sz bc s : ℕ} (h : sample_one v sz bc = some s) :
    s ≤ bc :=
  le_trans (sample_one_le_max h) (max_samples_le bc)

lemma corrupt_batches_pos {v sz bc : ℕ} (hv : 0 < v) (hsz : 0 < sz)
    (hbc : 0 < bc) : 0 < corrupt_batches v sz bc := by
  unfold corrupt_batches
  exact lt_min (cdiv_pos hv hsz) hbc

lemma sample_one_eq {v sz bc : ℕ} (hc : 0 < corrupt_batches v sz bc) :
    sample_one v sz bc =
      some (min (required_samples bc (corrupt_batches v sz bc)) (max_samples bc)) := by
  unfold sample_one
  rw [if_neg (by omega)]

lemma sample_one_isSome {v sz bc : ℕ} (hv : 0 < v) (hsz : 0 < sz)
    (hbc : 0 < bc) : (sample_one v sz bc).isSome := by
  rw [sample_one_eq (corrupt_batches_pos hv hsz hbc)]
  rfl

lemma corrupt_batches_mono {v w sz bc : ℕ} (hsz : 0 < sz) (h : v ≤ w) :
    corrupt_batches v sz bc ≤ corrupt_batches w sz bc :=
  min_le_min (cdiv_le_cdiv_num hsz h) le_rfl

lemma required_samples_anti {bc c d : ℕ} (hc : 0 < c) (h : c ≤ d) :
    required_samples bc d ≤ required_samples bc c := by
  unfold required_samples
  exact cdiv_le_cdiv_den (by omega) (by omega)

/-- Monotonicity of one structure's sample count: more votes to flip never
increases the required samples. -/
lemma sample_one_anti {v w sz bc s t : ℕ} (hvw : v ≤ w)
    (hs : sample_one v sz bc = some s) (ht : sample_one w sz bc = some t) :
    t ≤ s := by
  have hcv : 0 < corrupt_batches v sz bc := by
    unfold sample_one at hs
    split at hs
    · exact absurd hs (by simp)
    · omega
  have hcw : 0 < corrupt_batches w sz bc := by
    unfold sample_one at ht
    split at ht
    · exact absurd ht (by simp)
    · omega
  have hsz : 0 < sz := by
    rcases Nat.eq_zero_or_pos sz with h0 | h0
    · exfalso
      unfold corrupt_batches cdiv at hcv
      subst h0
      simp at hcv
    · exact h0
  rw [sample_one_eq hcv, Option.some.injEq] at hs
  rw [sample_one_eq hcw, Option.some.injEq] at ht
  subst hs
  subst ht
  exact min_le_min
    (required_samples_anti hcv (corrupt_batches_mono hsz hvw)) le_rfl

/-- Bounds on both returned sample counts, whenever the call returns. -/
lemma calc_bounds {m tv pbc tbc ps ts p t : ℕ}
    (h : calc_sample_counts m tv pbc tbc ps ts = some (p, t)) :
    p ≤ pbc ∧ t ≤ tbc := by
  unfold calc_sample_counts at h
  split at h
  · simp only [Option.some.injEq, Prod.mk.injEq] at h
    omega
  · split at h
    · simp only [Option.some.injEq, Prod.mk.injEq] at h
      omega
    · cases hp : sample_one (votes_to_flip m) ps pbc with
      | none => rw [hp] at h; exact absurd h (by simp)
      | some sp =>
        cases htv : sample_one (votes_to_flip m) ts tbc with
        | none => rw [hp, htv] at h; exact absurd h (by simp)
        | some st =>
          rw [hp, htv] at h
          simp only [Option.some.injEq, Prod.mk.injEq] at h
          obtain ⟨rfl, rfl⟩ := h
          exact ⟨sample_one_le_bc hp, sample_one_le_bc htv⟩

/-- Totality of `calc_sample_counts` when both batch counts and both batch
sizes are positive. -/
lemma calc_isSome (m tv : ℕ) {pbc tbc ps ts : ℕ}
    (hp : 0 < pbc) (ht : 0 < tbc) (hps : 0 < ps) (hts : 0 < ts) :
    (calc_sample_counts m tv pbc tbc ps ts).isSome := by
  unfold calc_sample_counts
  split
  · rfl
  · split
    · rfl
    · have hvtf : 0 < votes_to_flip m := Nat.succ_pos _
      rw [sample_one_eq (corrupt_batches_pos hvtf hps hp),
        sample_one_eq (corrupt_batches_pos hvtf hts ht)]
      rfl

lemma max_samples_eq_pred {bc : ℕ} (h : 1 < bc) : max_samples bc = bc - 1 := by
  unfold max_samples
  rw [if_pos h]

lemma sample_one_le_pred {v sz bc s : ℕ} (h : sample_one v sz bc = some s)
    (hb : 1 < bc) : s ≤ bc - 1 := by
  have hmax := sample_one_le_max h
  rwa [max_samples_eq_pred hb] at hmax

/-- Inversion of `calc_sample_counts` on the sampling path (`margin ≠ 0`,
`total_votes ≠ 0`). -/
lemma calc_margin_pos {m tv pbc tbc ps ts p t : ℕ} (hm : m ≠ 0) (htv : tv ≠ 0)
    (h : calc_sample_counts m tv pbc tbc ps ts = some (p, t)) :
    sample_one (votes_to_flip m) ps pbc = some p ∧
    sample_one (votes_to_flip m) ts tbc = some t := by
  unfold calc_sample_counts at h
  rw [if_neg htv, if_neg hm] at h
  cases hp : sample_one (votes_to_flip m) ps pbc with
  | none => rw [hp] at h; exact absurd h (by simp)
  | some sp =>
    cases ht2 : sample_one (votes_to_flip m) ts tbc with
    | none => rw [hp, ht2] at h; exact absurd h (by simp)
    | some st =>
      rw [hp, ht2] at h
      simp only [Option.some.injEq, Prod.mk.injEq] at h
      obtain ⟨rfl, rfl⟩ := h
      exact ⟨rfl, rfl⟩

/-- Both sample counts are monotonically non-increasing in the margin. -/
lemma calc_anti {m1 m2 tv pbc tbc ps ts p1 t1 p2 t2 : ℕ}
    (htv : 0 < tv) (hm : m1 ≤ m2)
    (h1 : calc_sample_counts m1 tv pbc tbc ps ts = some (p1, t1))
    (h2 : calc_sample_counts m2 tv pbc tbc ps ts = some (p2, t2)) :
    p2 ≤ p1 ∧ t2 ≤ t1 := by
  rcases Nat.eq_zero_or_pos m1 with h0 | h0
  · subst h0
    have he : p1 = pbc ∧ t1 = tbc := by
      unfold calc_sample_counts at h1
      rw [if_neg (by omega), if_pos rfl] at h1
      simp only [Option.some.injEq, Prod.mk.injEq] at h1
      omega
    obtain ⟨rfl, rfl⟩ := he
    exact calc_bounds h2
  · obtain ⟨hp1, ht1⟩ := calc_margin_pos (by omega) (by omega) h1
    obtain ⟨hp2, ht2⟩ := calc_margin_pos (by omega) (by omega) h2
    have hv : votes_to_flip m1 ≤ votes_to_flip m2 := by
      have hd : m1 / 2 ≤ m2 / 2 := Nat.div_le_div_right hm
      unfold votes_to_flip
      omega
    exact ⟨sample_one_anti hv hp1 hp2, sample_one_anti hv ht1 ht2⟩

-- ── Concrete records used by the concrete evaluations below ──

/-- The record `analyze_dispute` produces for a zero-voter dispute with
consensus rate `0` (only `consensus_rate` varies with the rate). -/
def r00 : AnalysisResult :=
  { voters := 0, yes_votes := 0, no_votes := 0, margin := 0, margin_pct := 0,
    consensus_rate := 0, pm_batches := 0, tv_batches := 1, pm_samples := 0,
    tv_samples := 0, total_batches := 1, total_samples := 0,
    full_maci_gas := 8295918, macirla_gas := 7000000, savings_gas := 1295918,
    savings_pct := 78/5, full_usd := 74663/100, rla_usd := 630,
    savings_usd := 11663/100 }

/-- A minimal analysis record with gas totals `3` (full) and `1` (RLA). -/
def rec0 : AnalysisResult :=
  { voters := 0, yes_votes := 0, no_votes := 0, margin := 0, margin_pct := 0,
    consensus_rate := 0, pm_batches := 0, tv_batches := 0, pm_samples := 0,
    tv_samples := 0, total_batches := 0, total_samples := 0, full_maci_gas := 3,
    macirla_gas := 1, savings_gas := 2, savings_pct := 0, full_usd := 0,
    rla_usd := 0, savings_usd := 0 }

/-- The summary `summarize_results` produces for `[rec0]`. -/
def s0 : SummaryStats :=
  { protocol := "P", dispute_count := 1, voter_min := 0, voter_max := 0,
    voter_mean := 0, voter_median := 0, margin_min := 0, margin_max := 0,
    margin_mean := 0, margin_median := 0, savings_min := 0, savings_max := 0,
    savings_mean := 0, savings_median := 0, total_full_gas := 3,
    total_rla_gas := 1, total_savings_gas := 2, aggregate_savings_pct := 667/10,
    total_full_usd := 0, total_rla_usd := 0, total_savings_usd := 0 }

example : analyze_dispute 0 0 = some r00 := by decide

example : summarize_results [rec0] "P" = some s0 := by decide

-- ── Claim theorems ──

/-- C1 counterexample: a zero-voter dispute does NOT yield zero gas or zero
savings.  `tv_batches = ceil((0+1)/2) = 1`, so the full-MACI gas is
`1 * TV_PROOF_GAS + MACI_FIXED_GAS = 8295918`, the MaciRLA gas is the fixed
overhead `7000000`, and the savings are `1295918`, all nonzero. -/
theorem analyze_zero_voters_gas_nonzero :
    (analyze_dispute 0 0).map
        (fun r => (r.full_maci_gas, r.macirla_gas, r.savings_gas))
      = some (8295918, 7000000, 1295918) ∧
    ((8295918, 7000000, (1295918 : ℤ)) : ℕ × ℕ × ℤ) ≠ (0, 0, 0) := by
  decide

/-- C1 (amended): for `voters = 0` and any consensus rate in `[0,1]`,
`analyze_dispute` returns without any division error a record with zero
votes, margin, margin percentage and sample counts, but with
`pm_batches = 0`, `tv_batches = 1` and the fixed-overhead gas figures
(`full = 8295918`, `rla = 7000000`, savings `1295918`, i.e. 15.6%), the
percentage guards never dividing by zero. -/
theorem analyze_zero_voters_spec (c : ℚ) (h0 : 0 ≤ c) (h1 : c ≤ 1) :
    analyze_dispute 0 c = some { r00 with consensus_rate := pyRoundTo c 4 } := by
  have hz : ((0 : ℕ) : ℚ) * c = 0 := by norm_num
  unfold analyze_dispute
  simp only [hz]
  rfl

/-- C1 witness: the amended statement at the concrete rate `1/2`. -/
theorem analyze_zero_voters_spec_w :
    0 ≤ (1/2 : ℚ) ∧ (1/2 : ℚ) ≤ 1 ∧
    analyze_dispute 0 (1/2) = some { r00 with consensus_rate := pyRoundTo (1/2) 4 } :=
  ⟨by norm_num, by norm_num,
    analyze_zero_voters_spec (1/2) (by norm_num) (by norm_num)⟩

/-- C2: the concrete scenario `voters = 1000`, `consensus_rate = 0.9`
(with the configured `pm_batch_size = 5`, `tv_batch_size = 2`,
`confidence_x1000 = 2996`) produces exactly `yes = 900`, `no = 100`,
`margin = 800`, `margin_pct = 80.0`, `pm_batches = 200`, `tv_batches = 501`,
`pm_samples = 8`, with the intermediate values `votes_to_flip = 401` and
`pm_corrupt = 81`. -/
theorem concrete_scenario_1000 :
    PM_BATCH_SIZE = 5 ∧ TV_BATCH_SIZE = 2 ∧ CONFIDENCE_X1000 = 2996 ∧
    analyze_dispute 1000 (9/10) = some
      { voters := 1000, yes_votes := 900, no_votes := 100, margin := 800,
        margin_pct := 80, consensus_rate := 9/10, pm_batches := 200,
        tv_batches := 501, pm_samples := 8, tv_samples := 8,
        total_batches := 701, total_samples := 16,
        full_maci_gas := 304243818, macirla_gas := 14012728,
        savings_gas := 290231090, savings_pct := 477/5, full_usd := 1369097/50,
        rla_usd := 25223/20, savings_usd := 130604/5 } ∧
    votes_to_flip 800 = 401 ∧
    corrupt_batches (votes_to_flip 800) PM_BATCH_SIZE 200 = 81 ∧
    required_samples 200 (corrupt_batches (votes_to_flip 800) PM_BATCH_SIZE 200) = 8 := by
  decide

/-- C3: whenever `calc_sample_counts` returns, the sample counts satisfy
`0 ≤ pm_samples ≤ pm_batch_count` and `0 ≤ tv_samples ≤ tv_batch_count`. -/
theorem sample_counts_bounded (m tv pbc tbc ps ts p t : ℕ)
    (h : calc_sample_counts m tv pbc tbc ps ts = some (p, t)) :
    0 ≤ p ∧ p ≤ pbc ∧ 0 ≤ t ∧ t ≤ tbc := by
  obtain ⟨hp, ht⟩ := calc_bounds h
  exact ⟨Nat.zero_le _, hp, Nat.zero_le _, ht⟩

/-- C3 witness: the bounds at the concrete call of the 1000-voter scenario. -/
theorem sample_counts_bounded_w :
    calc_sample_counts 800 1000 200 501 5 2 = some (8, 8) ∧
    (0 ≤ 8 ∧ 8 ≤ 200 ∧ 0 ≤ 8 ∧ 8 ≤ 501) :=
  ⟨by decide, sample_counts_bounded 800 1000 200 501 5 2 8 8 (by decide)⟩

/-- C4 counterexample: with `margin = 0` (and `total_votes > 0`) the code
returns the FULL batch count for a structure with `batch_count = 2 > 1`,
so the returned sample count is `2`, not at most `batch_count - 1 = 1`. -/
theorem tie_samples_exceed_pred :
    calc_sample_counts 0 10 2 2 5 2 = some (2, 2) ∧ ¬(2 ≤ 2 - 1) := by
  decide

/-- C4 (amended): on every call with `margin ≥ 1`, a structure with
`batch_count > 1` receives at most `batch_count - 1` samples (the tie path
`margin = 0` instead returns the full batch count); and `batch_count = 1`
forces no reduction: `max_samples 1 = 1`. -/
theorem samples_le_batch_pred (m tv pbc tbc ps ts p t : ℕ) (hm : 0 < m)
    (h : calc_sample_counts m tv pbc tbc ps ts = some (p, t)) :
    (1 < pbc → p ≤ pbc - 1) ∧ (1 < tbc → t ≤ tbc - 1) ∧ max_samples 1 = 1 := by
  rcases Nat.eq_zero_or_pos tv with h0 | h0
  · subst h0
    unfold calc_sample_counts at h
    rw [if_pos rfl] at h
    simp only [Option.some.injEq, Prod.mk.injEq] at h
    refine ⟨fun _ => ?_, fun _ => ?_, rfl⟩ <;> omega
  · obtain ⟨hp, ht⟩ := calc_margin_pos (by omega) (by omega) h
    exact ⟨fun hb => sample_one_le_pred hp hb,
           fun hb => sample_one_le_pred ht hb, rfl⟩

/-- C4 witness: the amended bound at the 1000-voter scenario call. -/
theorem samples_le_batch_pred_w :
    0 < 800 ∧ calc_sample_counts 800 1000 200 501 5 2 = some (8, 8) ∧
    ((1 < 200 → 8 ≤ 200 - 1) ∧ (1 < 501 → 8 ≤ 501 - 1) ∧ max_samples 1 = 1) :=
  ⟨by decide, by decide,
    samples_le_batch_pred 800 1000 200 501 5 2 8 8 (by decide) (by decide)⟩

/-- C5 counterexample: `margin = 0` does not always return the batch counts:
the `total_votes = 0` guard fires first and returns `(0, 0)`, not `(5, 7)`. -/
theorem tie_zero_votes_cex :
    calc_sample_counts 0 0 5 7 1 1 = some (0, 0) ∧
    ¬((0 : ℕ) = 5 ∧ (0 : ℕ) = 7) := by
  decide

/-- C5 (amended): whenever `total_votes > 0`, a call with `margin = 0`
returns the full batch counts for both structures (full verification);
with `total_votes = 0` the zero-votes guard fires first and `(0, 0)` is
returned. -/
theorem tie_full_verification (tv pbc tbc ps ts : ℕ) (htv : 0 < tv) :
    calc_sample_counts 0 tv pbc tbc ps ts = some (pbc, tbc) := by
  unfold calc_sample_counts
  rw [if_neg (by omega), if_pos rfl]

/-- C5 witness: the amended statement at a concrete tied dispute. -/
theorem tie_full_verification_w :
    0 < 1000 ∧ calc_sample_counts 0 1000 200 501 5 2 = some (200, 501) :=
  ⟨by decide, tie_full_verification 1000 200 501 5 2 (by decide)⟩

/-- C6: for fixed positive total votes and fixed batch structure, both
returned sample counts are monotonically non-increasing in the margin:
`m1 ≤ m2` implies `samples(m2) ≤ samples(m1)` for each structure. -/
theorem samples_antitone_margin (m1 m2 tv pbc tbc ps ts p1 t1 p2 t2 : ℕ)
    (htv : 0 < tv) (hm : m1 ≤ m2)
    (h1 : calc_sample_counts m1 tv pbc tbc ps ts = some (p1, t1))
    (h2 : calc_sample_counts m2 tv pbc tbc ps ts = some (p2, t2)) :
    p2 ≤ p1 ∧ t2 ≤ t1 :=
  calc_anti htv hm h1 h2

/-- C6 witness: margins 100 and 800 in the 1000-voter batch structure. -/
theorem samples_antitone_margin_w :
    0 < 1000 ∧ 100 ≤ 800 ∧
    calc_sample_counts 100 1000 200 501 5 2 = some (55, 58) ∧
    calc_sample_counts 800 1000 200 501 5 2 = some (8, 8) ∧
    (8 ≤ 55 ∧ 8 ≤ 58) :=
  ⟨by decide, by decide, by decide, by decide,
    samples_antitone_margin 100 800 1000 200 501 5 2 55 58 8 8
      (by decide) (by decide) (by decide) (by decide)⟩

/-- C7 counterexample: within the claimed domain (`margin = 1 ≥ 0`,
`total_votes = 1 ≥ 0`, batch counts `0` and `1` both non-negative, batch
sizes `1 ≥ 1`), `calc_sample_counts` raises `ZeroDivisionError` (modelled as
`none`): the capped corrupt-batch count is `min (ceil(1/1)) 0 = 0`, and
line 59 then divides by `0 * 1000`. -/
theorem calc_zero_batch_raises : calc_sample_counts 1 1 0 1 1 1 = none := by
  decide

/-- C7 (amended): `calc_sample_counts` raises no error whenever both batch
counts are at least 1 (with positive batch sizes), for every margin and
total-vote count; a zero batch count together with positive margin and
total votes is the raising case excluded here. -/
theorem calc_no_raise (m tv pbc tbc ps ts : ℕ) (hp : 1 ≤ pbc) (ht : 1 ≤ tbc)
    (hps : 1 ≤ ps) (hts : 1 ≤ ts) :
    (calc_sample_counts m tv pbc tbc ps ts).isSome :=
  calc_isSome m tv hp ht hps hts

/-- C7 witness: totality at the 1000-voter scenario call. -/
theorem calc_no_raise_w :
    (1 ≤ 200 ∧ 1 ≤ 501 ∧ 1 ≤ 5 ∧ 1 ≤ 2) ∧
    (calc_sample_counts 800 1000 200 501 5 2).isSome :=
  ⟨by decide,
    calc_no_raise 800 1000 200 501 5 2 (by decide) (by decide) (by decide)
      (by decide)⟩

/-- C8 counterexample: the stored `aggregate_savings_pct` is the totals
formula ROUNDED to one decimal (`66.7`), which is not equal to the exact
ratio `(3 - 1)/3 * 100 = 200/3` recomputed from the raw result list. -/
theorem aggregate_rounding_cex :
    (summarize_results [rec0] "P").map SummaryStats.aggregate_savings_pct
      = some (667/10) ∧
    ((((([rec0].map AnalysisResult.full_maci_gas).sum : ℕ) : ℚ) -
       ((([rec0].map AnalysisResult.macirla_gas).sum : ℕ) : ℚ)) /
      ((([rec0].map AnalysisResult.full_maci_gas).sum : ℕ) : ℚ) * 100)
      ≠ (667/10 : ℚ) := by
  decide

/-- C8 (amended): for every non-empty result list whose total full gas is
positive, the stored `aggregate_savings_pct` equals the totals formula
`(Σ full_gas − Σ rla_gas) / Σ full_gas * 100` recomputed independently from
the raw result list and rounded to one decimal place — computed from
totals, not from the mean of the per-record percentages. -/
theorem aggregate_from_totals (results : List AnalysisResult) (name : String)
    (s : SummaryStats) (h : summarize_results results name = some s)
    (hpos : 0 < (results.map AnalysisResult.full_maci_gas).sum) :
    s.aggregate_savings_pct = pyRoundTo
      ((((results.map AnalysisResult.full_maci_gas).sum : ℚ) -
        ((results.map AnalysisResult.macirla_gas).sum : ℚ)) /
       ((results.map AnalysisResult.full_maci_gas).sum : ℚ) * 100) 1 := by
  unfold summarize_results at h
  split at h
  · exact absurd h (by simp)
  · simp only [Option.some.injEq] at h
    subst h
    dsimp only
    rw [if_pos hpos]

/-- C8 witness: the amended statement at the singleton list `[rec0]`. -/
theorem aggregate_from_totals_w :
    summarize_results [rec0] "P" = some s0 ∧
    0 < ([rec0].map AnalysisResult.full_maci_gas).sum ∧
    s0.aggregate_savings_pct = pyRoundTo
      (((([rec0].map AnalysisResult.full_maci_gas).sum : ℚ) -
        (([rec0].map AnalysisResult.macirla_gas).sum : ℚ)) /
       (([rec0].map AnalysisResult.full_maci_gas).sum : ℚ) * 100) 1 :=
  ⟨by decide, by decide,
    aggregate_from_totals [rec0] "P" s0 (by decide) (by decide)⟩

/-- C9: for every voter count and consensus rate in `[0,1]`,
`analyze_dispute` terminates without raising; for `voters > 0` both derived
batch counts are at least 1 (so the corrupt-batch divisor inside
`calc_sample_counts` is positive), and for `voters = 0` the sampling call
short-circuits with the guarded percentage divisions. -/
theorem analyze_no_raise (v : ℕ) (c : ℚ) (h0 : 0 ≤ c) (h1 : c ≤ 1) :
    (analyze_dispute v c).isSome ∧
    (0 < v → 1 ≤ cdiv v PM_BATCH_SIZE ∧ 1 ≤ cdiv (v + 1) TV_BATCH_SIZE) := by
  have hp5 : 0 < PM_BATCH_SIZE := by decide
  have ht2 : 0 < TV_BATCH_SIZE := by decide
  constructor
  · rcases Nat.eq_zero_or_pos v with h | h
    · subst h
      rfl
    · have hpm : 0 < cdiv v PM_BATCH_SIZE := cdiv_pos h hp5
      have htb : 0 < cdiv (v + 1) TV_BATCH_SIZE := cdiv_pos (Nat.succ_pos v) ht2
      simp only [analyze_dispute]
      split
      · next heq =>
          exact absurd heq (Option.isSome_iff_ne_none.mp
            (calc_isSome _ _ hpm htb hp5 ht2))
      · rfl
  · intro hv
    exact ⟨cdiv_pos hv hp5, cdiv_pos (Nat.succ_pos v) ht2⟩

/-- C9 witness: totality at the 1000-voter dispute with rate `0.9`. -/
theorem analyze_no_raise_w :
    0 ≤ (9/10 : ℚ) ∧ (9/10 : ℚ) ≤ 1 ∧
    ((analyze_dispute 1000 (9/10)).isSome ∧
     (0 < 1000 → 1 ≤ cdiv 1000 PM_BATCH_SIZE ∧ 1 ≤ cdiv (1000 + 1) TV_BATCH_SIZE)) :=
  ⟨by norm_num, by norm_num,
    analyze_no_raise 1000 (9/10) (by norm_num) (by norm_num)⟩

/-- C10: `analyze_dispute` stores ROUNDED values — `margin_pct` and
`savings_pct` rounded to 1 decimal place, `consensus_rate` to 4, the USD
figures to 2 — each the rounding of the exact ratio of the record's own
unrounded integer fields; and `summarize_results` and `build_histogram`
consume exactly these stored per-record fields, so every downstream mean,
median and histogram over `margin_pct` or `savings_pct` is computed on the
rounded data. -/
theorem rounded_fields_consumed (v : ℕ) (c : ℚ) (r : AnalysisResult)
    (results : List AnalysisResult) (name : String) (s : SummaryStats)
    (bins : List (ℚ × ℚ))
    (h1 : analyze_dispute v c = some r)
    (h2 : summarize_results results name = some s) :
    (r.margin_pct
        = pyRoundTo (if 0 < r.voters then (r.margin : ℚ) / (r.voters : ℚ) * 100 else 0) 1
      ∧ r.consensus_rate = pyRoundTo c 4
      ∧ r.savings_pct
        = pyRoundTo (if 0 < r.full_maci_gas then
            ((r.full_maci_gas : ℚ) - (r.macirla_gas : ℚ)) / (r.full_maci_gas : ℚ) * 100
          else 0) 1
      ∧ r.full_usd = pyRoundTo (gas_to_usd (r.full_maci_gas : ℤ)) 2
      ∧ r.rla_usd = pyRoundTo (gas_to_usd (r.macirla_gas : ℤ)) 2
      ∧ r.savings_usd
        = pyRoundTo (gas_to_usd (r.full_maci_gas : ℤ) - gas_to_usd (r.macirla_gas : ℤ)) 2)
    ∧ (s.margin_mean
        = pyRoundTo ((results.map AnalysisResult.margin_pct).sum / (results.length : ℚ)) 1
      ∧ s.margin_median
        = pyRoundTo (medianOf 0 (results.map AnalysisResult.margin_pct)) 1
      ∧ s.savings_mean
        = pyRoundTo ((results.map AnalysisResult.savings_pct).sum / (results.length : ℚ)) 1
      ∧ s.savings_median
        = pyRoundTo (medianOf 0 (results.map AnalysisResult.savings_pct)) 1)
    ∧ build_histogram results AnalysisResult.margin_pct bins
        = bins.map (fun b => (results.filter
            (fun x => decide (b.1 ≤ x.margin_pct) && decide (x.margin_pct < b.2))).length) := by
  refine ⟨?_, ?_, ?_⟩
  · simp only [analyze_dispute] at h1
    split at h1
    · exact absurd h1 (by simp)
    · next p t heq =>
        simp only [Option.some.injEq] at h1
        subst h1
        refine ⟨rfl, rfl, ?_, rfl, rfl, rfl⟩
        dsimp only
        rw [show ∀ a b : ℕ, (((a : ℤ) - (b : ℤ) : ℤ) : ℚ) = (a : ℚ) - (b : ℚ) from
          fun a b => by push_cast; ring]
  · unfold summarize_results at h2
    split at h2
    · exact absurd h2 (by simp)
    · simp only [Option.some.injEq] at h2
      subst h2
      exact ⟨rfl, rfl, rfl, rfl⟩
  · unfold build_histogram
    congr 1
    funext b
    rw [List.filter_map, List.length_map]
    rfl

/-- C10 witness: the zero-voter record, the singleton summary `s0` and one
concrete bucket. -/
theorem rounded_fields_consumed_w :
    (r00.margin_pct
        = pyRoundTo (if 0 < r00.voters then (r00.margin : ℚ) / (r00.voters : ℚ) * 100 else 0) 1
      ∧ r00.consensus_rate = pyRoundTo 0 4
      ∧ r00.savings_pct
        = pyRoundTo (if 0 < r00.full_maci_gas then
            ((r00.full_maci_gas : ℚ) - (r00.macirla_gas : ℚ)) / (r00.full_maci_gas : ℚ) * 100
          else 0) 1
      ∧ r00.full_usd = pyRoundTo (gas_to_usd (r00.full_maci_gas : ℤ)) 2
      ∧ r00.rla_usd = pyRoundTo (gas_to_usd (r00.macirla_gas : ℤ)) 2
      ∧ r00.savings_usd
        = pyRoundTo (gas_to_usd (r00.full_maci_gas : ℤ) - gas_to_usd (r00.macirla_gas : ℤ)) 2)
    ∧ (s0.margin_mean
        = pyRoundTo ((([rec0]).map AnalysisResult.margin_pct).sum / (([rec0]).length : ℚ)) 1
      ∧ s0.margin_median
        = pyRoundTo (medianOf 0 (([rec0]).map AnalysisResult.margin_pct)) 1
      ∧ s0.savings_mean
        = pyRoundTo ((([rec0]).map AnalysisResult.savings_pct).sum / (([rec0]).length : ℚ)) 1
      ∧ s0.savings_median
        = pyRoundTo (medianOf 0 (([rec0]).map AnalysisResult.savings_pct)) 1)
    ∧ build_histogram [rec0] AnalysisResult.margin_pct [(0, 50)]
        = [(0, 50)].map (fun b => (([rec0]).filter
            (fun x => decide (b.1 ≤ x.margin_pct) && decide (x.margin_pct < b.2))).length) :=
  rounded_fields_consumed 0 0 r00 [rec0] "P" s0 [(0, 50)] (by decide) (by decide)
